import Mathlib

/-!
Shallow embedding of the gameplay-simulation core of the `roguelike-2d-football`
repository, together with theorems checking its natural-language specification.

Embedded components:
* `Football` — `src/game/FootballRules.ts` and `src/game/ScoringManager.ts`
  (gridiron down/score/possession state machine);
* `Soccer` — `SoccerRules` (pitch variant state machine, in
  `src/game/PositionManager.ts`'s compilation unit);
* `Tackle` — `src/physics/TackleSystem.ts` (probabilistic contact resolution);
* `Ball` — `SoccerBall` (3D projectile integration with drag, Magnus curve,
  friction, bounce and hard-zero stop thresholds).

Field coordinates, scores and clocks in the rules layers are embedded as `ℚ`/`ℕ`
(the source only adds, compares and scales them), keeping every rules operation
computable and every concrete scenario decidable.  The physics layers use `ℝ`
because the source takes square roots (vector lengths) and arccosines.
-/

namespace Football

/-- `PlayState` enum from `FootballRules.ts`. -/
inductive PlayState where
  | PRE_SNAP
  | SNAP
  | PLAY_ACTIVE
  | WHISTLE
  | COIN_FLIP
  | KICKOFF
deriving DecidableEq, Repr

/-- `Team` type (`'home' | 'away'`) from `ScoringManager.ts`. -/
inductive Team where
  | home
  | away
deriving DecidableEq, Repr

/-- The opposing team (`possession === 'home' ? 'away' : 'home'`). -/
def Team.other : Team → Team
  | Team.home => Team.away
  | Team.away => Team.home

/-- Mutable fields of the `FootballRules` class. -/
structure Rules where
  down : ℕ
  distanceToFirst : ℚ
  lineOfScrimmage : ℚ
  firstDownLine : ℚ
  scoreHome : ℕ
  scoreAway : ℕ
  playState : PlayState
  possession : Team
  kickingTeam : Team
deriving DecidableEq, Repr

/-- `FootballRules.calculateFirstDownLine`: marker is line + distance, capped at 50. -/
def calculateFirstDownLine (s : Rules) : Rules :=
  let fdl := s.lineOfScrimmage + s.distanceToFirst
  { s with firstDownLine := if fdl > 50 then 50 else fdl }

/-- `FootballRules.resetGame`. -/
def resetGame (s : Rules) : Rules :=
  { s with scoreHome := 0, scoreAway := 0, playState := PlayState.COIN_FLIP }

/-- `FootballRules.setupKickoff`. -/
def setupKickoff (s : Rules) : Rules :=
  { s with playState := PlayState.KICKOFF
           lineOfScrimmage := if s.kickingTeam = Team.home then (-15 : ℚ) else 15 }

/-- `FootballRules.performCoinFlip`.  The source draws `Math.random()`; the
draw's outcome is passed in as `result`. -/
def performCoinFlip (s : Rules) (call result : Bool) : Rules :=
  let won := call = result
  let s :=
    if won then
      { s with possession := Team.home, kickingTeam := Team.away }
    else
      { s with possession := Team.away, kickingTeam := Team.home }
  setupKickoff s

/-- `FootballRules.startNewDrive`. -/
def startNewDrive (s : Rules) (startX : ℚ) : Rules :=
  let s := { s with lineOfScrimmage := startX, down := 1, distanceToFirst := 10 }
  let s := calculateFirstDownLine s
  { s with playState := PlayState.WHISTLE }

/-- `FootballRules.snapBall`: only acts in `PRE_SNAP`. -/
def snapBall (s : Rules) : Rules :=
  if s.playState = PlayState.PRE_SNAP then
    { s with playState := PlayState.PLAY_ACTIVE }
  else s

/-- `ScoringManager.isTouchdown`. -/
def isTouchdown (lineOfScrimmage : ℚ) : Prop := lineOfScrimmage ≥ 50

instance : DecidablePred isTouchdown := fun x => inferInstanceAs (Decidable (x ≥ 50))

/-- `ScoringManager.isSafety`. -/
def isSafety (lineOfScrimmage : ℚ) : Prop := lineOfScrimmage ≤ -50

instance : DecidablePred isSafety := fun x => inferInstanceAs (Decidable (x ≤ -50))

/-- `ScoringManager.scoreTouchdown`: 6 points to the possessing team, possession
flips, the scorer becomes the kicking team, then `setupKickoff`. -/
def scoreTouchdown (s : Rules) : Rules :=
  let s :=
    if s.possession = Team.home then
      { s with scoreHome := s.scoreHome + 6
               possession := Team.away, kickingTeam := Team.home }
    else
      { s with scoreAway := s.scoreAway + 6
               possession := Team.home, kickingTeam := Team.away }
  setupKickoff s

/-- `ScoringManager.scoreSafety`: 2 points to the defending team, the team
tackled in its own endzone kicks, then `setupKickoff`. -/
def scoreSafety (s : Rules) : Rules :=
  let s :=
    if s.possession = Team.home then
      { s with scoreAway := s.scoreAway + 2
               kickingTeam := Team.home, possession := Team.away }
    else
      { s with scoreHome := s.scoreHome + 2
               kickingTeam := Team.away, possession := Team.home }
  setupKickoff s

/-- `ScoringManager.turnoverOnDowns`: possession flips, new drive from the
current spot. -/
def turnoverOnDowns (s : Rules) : Rules :=
  let s := { s with possession := s.possession.other }
  startNewDrive s s.lineOfScrimmage

/-- `FootballRules.endPlay`. -/
def endPlay (s : Rules) (endX : ℚ) : Rules :=
  if s.playState ≠ PlayState.PLAY_ACTIVE ∧ s.playState ≠ PlayState.KICKOFF then s
  else if s.playState = PlayState.KICKOFF then startNewDrive s endX
  else
    let s := { s with lineOfScrimmage := endX }
    if isTouchdown s.lineOfScrimmage then scoreTouchdown s
    else if isSafety s.lineOfScrimmage then scoreSafety s
    else if s.lineOfScrimmage ≥ s.firstDownLine then
      let s := { s with down := 1, distanceToFirst := 10 }
      let s := calculateFirstDownLine s
      { s with playState := PlayState.WHISTLE }
    else
      let s := { s with down := s.down + 1 }
      let s := { s with distanceToFirst := s.firstDownLine - s.lineOfScrimmage }
      if s.down > 4 then turnoverOnDowns s
      else { s with playState := PlayState.WHISTLE }

/-- The score of a given team in a gridiron rules state. -/
def Rules.scoreOf (s : Rules) : Team → ℕ
  | Team.home => s.scoreHome
  | Team.away => s.scoreAway

/-- A rules state with the phase forced to `PLAY_ACTIVE` (a play in progress,
as after `snapBall` from `PRE_SNAP`). -/
def withPlayActive (s : Rules) : Rules :=
  { s with playState := PlayState.PLAY_ACTIVE }

/-- Drive start used by the scenario claims: fresh state with a chosen
possession, no points yet. -/
def driveStart (p : Team) : Rules :=
  { down := 1, distanceToFirst := 10, lineOfScrimmage := -40, firstDownLine := -30
    scoreHome := 0, scoreAway := 0, playState := PlayState.PRE_SNAP
    possession := p, kickingTeam := p.other }

end Football

namespace Soccer

/-- `PlayState` enum from `SoccerRules`. -/
inductive PlayState where
  | KICKOFF
  | PLAYING
  | GOAL_SCORED
  | OUT_OF_BOUNDS
  | FOUL
  | CORNER_KICK
  | GOAL_KICK
  | FREE_KICK
  | PENALTY
  | HALFTIME
  | GAME_OVER
deriving DecidableEq, Repr

/-- `Team` type (`'home' | 'away'`) from `SoccerRules`. -/
inductive Team where
  | home
  | away
deriving DecidableEq, Repr

/-- The opposing team (`t === 'home' ? 'away' : 'home'`). -/
def Team.other : Team → Team
  | Team.home => Team.away
  | Team.away => Team.home

/-- Exit sides accepted by `SoccerRules.ballOutOfBounds`. -/
inductive ExitSide where
  | top
  | bottom
  | left
  | right
deriving DecidableEq, Repr

/-- Mutable fields of the `SoccerRules` class.  `halfDuration` is the readonly
constant `180`; `currentHalf` has source type `1 | 2`. -/
structure Rules where
  playState : PlayState
  possession : Team
  scoreHome : ℕ
  scoreAway : ℕ
  matchTime : ℚ
  currentHalf : ℕ
  restartX : ℚ
  restartY : ℚ
  lastTouch : Team
deriving DecidableEq, Repr

/-- The `halfDuration` readonly field (180 s real time per half). -/
def halfDuration : ℚ := 180

/-- `SoccerRules.resetMatch`. -/
def resetMatch (s : Rules) : Rules :=
  { s with playState := PlayState.KICKOFF, possession := Team.home
           scoreHome := 0, scoreAway := 0, matchTime := 0, currentHalf := 1
           restartX := 0, restartY := 0 }

/-- `SoccerRules.startKickoff`. -/
def startKickoff (s : Rules) (kickingTeam : Team) : Rules :=
  { s with playState := PlayState.KICKOFF, possession := kickingTeam
           restartX := 0, restartY := 0 }

/-- `SoccerRules.startPlay`. -/
def startPlay (s : Rules) : Rules :=
  if s.playState ≠ PlayState.PLAYING then { s with playState := PlayState.PLAYING }
  else s

/-- `SoccerRules.scoreGoal` — the synchronous part of the call.  The source
additionally schedules `startKickoff(concedingTeam)` on a 2 s `setTimeout`;
that delayed transition is not part of the state reached when the call
returns, so it is not included here. -/
def scoreGoal (s : Rules) (scoringTeam : Team) : Rules :=
  let s :=
    if scoringTeam = Team.home then { s with scoreHome := s.scoreHome + 1 }
    else { s with scoreAway := s.scoreAway + 1 }
  { s with playState := PlayState.GOAL_SCORED }

/-- `SoccerRules.ballOutOfBounds`. -/
def ballOutOfBounds (s : Rules) (lastTouchedBy : Team) (exitSide : ExitSide)
    (posX posY : ℚ) : Rules :=
  let s := { s with lastTouch := lastTouchedBy, restartX := posX, restartY := posY }
  let restartTeam := lastTouchedBy.other
  let s := { s with possession := restartTeam }
  if exitSide = ExitSide.left ∨ exitSide = ExitSide.right then
    let isCorner := (exitSide = ExitSide.left ∧ lastTouchedBy = Team.away) ∨
                    (exitSide = ExitSide.right ∧ lastTouchedBy = Team.home)
    if isCorner then { s with playState := PlayState.CORNER_KICK }
    else { s with playState := PlayState.GOAL_KICK }
  else
    { s with playState := PlayState.OUT_OF_BOUNDS }

/-- `SoccerRules.callFoul`. -/
def callFoul (s : Rules) (foulingTeam : Team) (posX posY : ℚ)
    (inPenaltyBox : Bool) : Rules :=
  let fouledTeam := foulingTeam.other
  let s := { s with possession := fouledTeam, restartX := posX, restartY := posY }
  if inPenaltyBox then { s with playState := PlayState.PENALTY }
  else { s with playState := PlayState.FREE_KICK }

/-- `SoccerRules.updateTime`. -/
def updateTime (s : Rules) (deltaSeconds : ℚ) : Rules :=
  if s.playState = PlayState.PLAYING then
    let s := { s with matchTime := s.matchTime + deltaSeconds }
    if s.currentHalf = 1 ∧ s.matchTime ≥ halfDuration then
      { s with playState := PlayState.HALFTIME }
    else if s.currentHalf = 2 ∧ s.matchTime ≥ halfDuration * 2 then
      { s with playState := PlayState.GAME_OVER }
    else s
  else s

/-- `SoccerRules.startSecondHalf`. -/
def startSecondHalf (s : Rules) : Rules :=
  startKickoff { s with currentHalf := 2 } Team.away

/-- The score of a given team in a pitch rules state. -/
def Rules.scoreOf (s : Rules) : Team → ℕ
  | Team.home => s.scoreHome
  | Team.away => s.scoreAway

/-- The team attacking a given byline, in this game's fixed orientation
(home attacks the right goal, away attacks the left goal; this is the
convention under which `ballOutOfBounds`'s `isCorner` test reads
"the attacking side touched it last").  Sidelines have no attacker. -/
def attackerOf : ExitSide → Option Team
  | ExitSide.left => some Team.away
  | ExitSide.right => some Team.home
  | ExitSide.top => none
  | ExitSide.bottom => none

end Soccer

/-- 3D vector (THREE.Vector3): `x` lateral, `y` depth, `z` height. -/
@[ext]
structure Vec3 where
  x : ℝ
  y : ℝ
  z : ℝ

namespace Vec3

/-- `Vector3.length()`. -/
noncomputable def len (v : Vec3) : ℝ := Real.sqrt (v.x ^ 2 + v.y ^ 2 + v.z ^ 2)

/-- `new THREE.Vector3().subVectors(a, b)`. -/
def sub (a b : Vec3) : Vec3 := ⟨a.x - b.x, a.y - b.y, a.z - b.z⟩

/-- `a.add(b)`. -/
def add (a b : Vec3) : Vec3 := ⟨a.x + b.x, a.y + b.y, a.z + b.z⟩

/-- `v.multiplyScalar(c)`. -/
def smul (c : ℝ) (v : Vec3) : Vec3 := ⟨c * v.x, c * v.y, c * v.z⟩

/-- `a.dot(b)`. -/
def dot (a b : Vec3) : ℝ := a.x * b.x + a.y * b.y + a.z * b.z

/-- `new THREE.Vector3().crossVectors(a, b)`. -/
def cross (a b : Vec3) : Vec3 :=
  ⟨a.y * b.z - a.z * b.y, a.z * b.x - a.x * b.z, a.x * b.y - a.y * b.x⟩

/-- `a.distanceTo(b)`. -/
noncomputable def distanceTo (a b : Vec3) : ℝ := (sub b a).len

/-- THREE.js `Vector3.normalize()`: `divideScalar(this.length() || 1)`.  The
`|| 1` guard means the zero vector is divided by 1, i.e. left unchanged. -/
noncomputable def normalize (v : Vec3) : Vec3 :=
  let d := if v.len = 0 then 1 else v.len
  ⟨v.x / d, v.y / d, v.z / d⟩

end Vec3

namespace Tackle

/-- Outcome categories of `TackleResult.tackleType`. -/
inductive TackleType where
  | full
  | trip
  | stumble
  | missed
deriving DecidableEq, Repr

/-- `TackleResult` from `TackleSystem.ts`. -/
structure TackleResult where
  success : Bool
  tackleType : TackleType
  knockbackForce : Vec3
  ballCarrierSlowdown : ℝ

/-- `TackleEntity`.  In the source `velocity` and `mass` are optional and
default to the zero vector and `1.0` at each use site (`|| new Vector3()`,
`|| 1.0`); the embedding takes the defaulted values as given fields. -/
structure TackleEntity where
  position : Vec3
  velocity : Vec3
  mass : ℝ

/-- `TackleSystem.TACKLE_RANGE`. -/
def TACKLE_RANGE : ℝ := 1.2

/-- `TackleSystem.calculateApproachAngle`: degrees in [0, 180], 0 = head-on.
A carrier moving slower than 0.01 is treated as standing still (angle 0). -/
noncomputable def calculateApproachAngle (tackler ballCarrier : TackleEntity) : ℝ :=
  let carrierVel := ballCarrier.velocity
  if carrierVel.len < 0.01 then 0
  else
    let tackleDir := (Vec3.sub ballCarrier.position tackler.position).normalize
    let carrierDir := carrierVel.normalize
    let d := tackleDir.dot carrierDir
    Real.arccos (max (-1) (min 1 d)) * (180 / Real.pi)

/-- `TackleSystem.calculateTacklePower`. -/
noncomputable def calculateTacklePower
    (approachAngle closingSpeed tacklerMass carrierMass : ℝ) : ℝ :=
  let angleMod : ℝ := if approachAngle > 120 then 0.5
                      else if approachAngle > 60 then 0.75
                      else 1.0
  let speedMod := min 1.5 (0.5 + closingSpeed * 2)
  let massRatio := tacklerMass / carrierMass
  let massMod := min 1.5 (max 0.5 massRatio)
  let power := angleMod * speedMod * massMod * 0.5
  min 1.0 (max 0 power)

/-- `TackleSystem.calculateBreakTackleChance`. -/
noncomputable def calculateBreakTackleChance
    (ballCarrier : TackleEntity) (tacklePower : ℝ) : ℝ :=
  let speed := ballCarrier.velocity.len
  let mass := ballCarrier.mass
  let carrierPower := 0.1 + speed * 0.2 + (mass - 1.0) * 0.1
  let breakChance := carrierPower * (1.0 - tacklePower)
  min 0.5 (max 0 breakChance)

/-- `TackleSystem.calculateKnockback`. -/
noncomputable def calculateKnockback
    (tackler ballCarrier : TackleEntity) (strength : ℝ) : Vec3 :=
  Vec3.smul strength ((Vec3.sub ballCarrier.position tackler.position).normalize)

/-- Closing speed used by `attemptTackle`: `|tacklerVel - carrierVel|`. -/
noncomputable def closingSpeed (tackler ballCarrier : TackleEntity) : ℝ :=
  (Vec3.sub tackler.velocity ballCarrier.velocity).len

/-- The tackle power `attemptTackle` computes for a given pair (the
`calculateTacklePower` call with the approach angle, closing speed and
masses of the two entities). -/
noncomputable def tacklePowerOf (tackler ballCarrier : TackleEntity) : ℝ :=
  calculateTacklePower (calculateApproachAngle tackler ballCarrier)
    (closingSpeed tackler ballCarrier) tackler.mass ballCarrier.mass

/-- `TackleSystem.attemptTackle`.  The source draws `Math.random()` for the
break-tackle roll; the draw is passed in as `roll`. -/
noncomputable def attemptTackle (tackler ballCarrier : TackleEntity) (roll : ℝ) :
    TackleResult :=
  let distance := tackler.position.distanceTo ballCarrier.position
  if distance > TACKLE_RANGE then
    ⟨false, TackleType.missed, ⟨0, 0, 0⟩, 0⟩
  else
    let tacklePower := tacklePowerOf tackler ballCarrier
    let breakChance := calculateBreakTackleChance ballCarrier tacklePower
    if roll < breakChance then
      ⟨false, TackleType.stumble, calculateKnockback tackler ballCarrier 0.2, 0.3⟩
    else if tacklePower > 0.7 then
      ⟨true, TackleType.full, calculateKnockback tackler ballCarrier 0.5, 1.0⟩
    else if tacklePower > 0.4 then
      ⟨true, TackleType.trip, calculateKnockback tackler ballCarrier 0.3, 0.8⟩
    else
      ⟨true, TackleType.stumble, calculateKnockback tackler ballCarrier 0.1, 0.5⟩

/-- The spec's `clamp(x, lo, hi)`. -/
noncomputable def clamp (x lo hi : ℝ) : ℝ := max lo (min hi x)

/-- Modelled from the spec's wording of the tackle-power formula, for
comparison with `calculateTacklePower`: "tackle power equal to angleModifier ×
speedModifier × massModifier × 0.5 clamped to [0,1] (with speed modifier
min(1.5, 0.5 + closingSpeed × 2) and mass modifier clamp(tacklerMass /
carrierMass, 0.5, 1.5))", angle buckets ≤60° front (1.0), ≤120° side (0.75),
otherwise behind (0.5). -/
noncomputable def specTacklePower
    (approachAngle closingSpeed tacklerMass carrierMass : ℝ) : ℝ :=
  let angleModifier : ℝ := if approachAngle ≤ 60 then 1.0
                           else if approachAngle ≤ 120 then 0.75
                           else 0.5
  let speedModifier := min 1.5 (0.5 + closingSpeed * 2)
  let massModifier := clamp (tacklerMass / carrierMass) 0.5 1.5
  clamp (angleModifier * speedModifier * massModifier * 0.5) 0 1

/-- Modelled from the spec's wording of the break-tackle formula, for
comparison with `calculateBreakTackleChance`: "clamp((0.1 + carrierSpeed ×
0.2 + (carrierMass − 1.0) × 0.1) × (1 − tacklePower), 0, 0.5)". -/
noncomputable def specBreakChance (carrierSpeed carrierMass tacklePower : ℝ) : ℝ :=
  clamp ((0.1 + carrierSpeed * 0.2 + (carrierMass - 1.0) * 0.1) * (1 - tacklePower)) 0 0.5

end Tackle

namespace SoccerBall

/-- Physics state of `SoccerBall` (`position.z` is the height axis).  The
mesh/shadow visuals mutated alongside are rendering-only and not modeled. -/
@[ext]
structure Ball where
  position : Vec3
  velocity : Vec3
  spin : Vec3
  isGrounded : Bool
  height : ℝ
  airTime : ℝ
  lastTouchedBy : Option Soccer.Team

/-- `SoccerBall.dragCoeff`. -/
def dragCoeff : ℝ := 0.015

/-- `SoccerBall.friction`. -/
def friction : ℝ := 0.92

/-- `SoccerBall.bounceCoeff`. -/
def bounceCoeff : ℝ := 0.6

/-- `SoccerBall.magnusStrength`. -/
def magnusStrength : ℝ := 0.003

/-- `SoccerBall.gravity`. -/
def gravity : ℝ := 0.015

/-- `SoccerBall.angularDrag`. -/
def angularDrag : ℝ := 0.98

/-- `update`, gravity section: `if (!this.isGrounded) { velocity.z -= gravity;
airTime += dt }`. -/
noncomputable def applyAirGravity (b : Ball) (dt : ℝ) : Ball :=
  if b.isGrounded then b
  else { b with velocity := ⟨b.velocity.x, b.velocity.y, b.velocity.z - gravity⟩
                airTime := b.airTime + dt }

/-- `update`, Magnus section: if spin is above epsilon, add
`(spin × velocity) * magnusStrength` with its `z` zeroed to the velocity. -/
noncomputable def applyMagnus (b : Ball) : Ball :=
  if b.spin.len > 0.01 then
    let magnusForce := Vec3.smul magnusStrength (Vec3.cross b.spin b.velocity)
    let magnusForce : Vec3 := ⟨magnusForce.x, magnusForce.y, 0⟩
    { b with velocity := Vec3.add b.velocity magnusForce }
  else b

/-- `update`, air-drag section: quadratic drag opposing the velocity, scaled
down to 0.6 while airborne. -/
noncomputable def applyDrag (b : Ball) : Ball :=
  let totalSpeed := b.velocity.len
  if totalSpeed > 0.01 then
    let dragMult : ℝ := if b.isGrounded then 1.0 else 0.6
    let dragForce :=
      Vec3.smul (-(dragCoeff * dragMult) * totalSpeed * totalSpeed) b.velocity.normalize
    { b with velocity := Vec3.add b.velocity dragForce }
  else b

/-- `update`, ground-friction section: multiplicative decay of the horizontal
velocity while grounded. -/
noncomputable def applyGroundFriction (b : Ball) : Ball :=
  if b.isGrounded then
    { b with velocity := ⟨b.velocity.x * friction, b.velocity.y * friction, b.velocity.z⟩ }
  else b

/-- `update`, spin decay: `spin.multiplyScalar(angularDrag)`. -/
noncomputable def decaySpin (b : Ball) : Ball :=
  { b with spin := Vec3.smul angularDrag b.spin }

/-- `update`, position integration: `position.add(velocity)`. -/
noncomputable def integratePosition (b : Ball) : Ball :=
  { b with position := Vec3.add b.position b.velocity }

/-- `update`, landing/bounce section.  On reaching the ground, a fast
descending airborne ball bounces (restitution 0.6, horizontal damping 0.85,
random spin perturbation `rand`), otherwise the ball settles.  The source
draws `Math.random()` for the perturbation; the draw is passed in as `rand`. -/
noncomputable def resolveGround (b : Ball) (rand : ℝ) : Ball :=
  if b.position.z ≤ 0 then
    let b := { b with position := ⟨b.position.x, b.position.y, 0⟩ }
    if b.isGrounded = false ∧ |b.velocity.z| > 0.02 then
      { b with velocity := ⟨b.velocity.x * 0.85, b.velocity.y * 0.85,
                            -b.velocity.z * bounceCoeff⟩
               spin := ⟨b.spin.x, b.spin.y, b.spin.z + (rand - 0.5) * 0.3⟩ }
    else
      { b with velocity := ⟨b.velocity.x, b.velocity.y, 0⟩
               isGrounded := true, airTime := 0 }
  else
    { b with isGrounded := false }

/-- `update`, height tracking: `height = max(0, position.z)`. -/
noncomputable def setHeight (b : Ball) : Ball :=
  { b with height := max 0 b.position.z }

/-- `update`, stop thresholds: hard-zero the velocity when grounded and the
(pre-drag) horizontal speed fell under 0.005, and hard-zero a near-zero spin. -/
noncomputable def applyStopThresholds (b : Ball) (horizontalSpeed : ℝ) : Ball :=
  let b := if b.isGrounded = true ∧ horizontalSpeed < 0.005 then
             { b with velocity := ⟨0, 0, 0⟩ }
           else b
  if b.spin.len < 0.001 then { b with spin := ⟨0, 0, 0⟩ } else b

/-- `SoccerBall.update(dt)`: one physics tick, composed of the source's
sections in source order.  `horizontalSpeed` is captured after the Magnus
section and before drag, exactly where the source computes it. -/
noncomputable def update (b : Ball) (dt rand : ℝ) : Ball :=
  let b1 := applyAirGravity b dt
  let b2 := applyMagnus b1
  let horizontalSpeed := Real.sqrt (b2.velocity.x ^ 2 + b2.velocity.y ^ 2)
  let b3 := applyDrag b2
  let b4 := applyGroundFriction b3
  let b5 := decaySpin b4
  let b6 := integratePosition b5
  let b7 := resolveGround b6 rand
  let b8 := setHeight b7
  applyStopThresholds b8 horizontalSpeed

/-- Horizontal speed of the ball's current velocity. -/
noncomputable def hSpeed (b : Ball) : ℝ :=
  Real.sqrt (b.velocity.x ^ 2 + b.velocity.y ^ 2)

/-- Repeated `update` ticks; `dts n` and `rands n` are tick `n`'s delta time
and random bounce-spin draw. -/
noncomputable def iterate (b : Ball) (dts rands : ℕ → ℝ) : ℕ → Ball
  | 0 => b
  | n + 1 => update (iterate b dts rands n) (dts n) (rands n)

/-- `SoccerBall.kick(direction, power, spinAmount, kicker, lift)`.  The
direction is normalized on X/Y only via THREE.js `Vector2.normalize`, whose
`divideScalar(length || 1)` guard leaves the zero vector unchanged. -/
noncomputable def kick (b : Ball) (direction : Vec3) (power spinAmount : ℝ)
    (kicker : Soccer.Team) (lift : ℝ) : Ball :=
  let len2 := Real.sqrt (direction.x ^ 2 + direction.y ^ 2)
  let d := if len2 = 0 then 1 else len2
  let dir2DX := direction.x / d
  let dir2DY := direction.y / d
  let velocity : Vec3 := ⟨dir2DX * power, dir2DY * power, lift * power * 0.8⟩
  let spin := if |spinAmount| > 0.01 then (⟨0, 0, spinAmount⟩ : Vec3) else b.spin
  let groundedAir : Bool × ℝ := if lift > 0.05 then (false, 0) else (b.isGrounded, b.airTime)
  { b with velocity := velocity, spin := spin, lastTouchedBy := some kicker
           isGrounded := groundedAir.1, airTime := groundedAir.2 }

/-- Pass types accepted by `SoccerBall.pass`. -/
inductive PassType where
  | ground
  | lob
  | chip
deriving DecidableEq, Repr

/-- `SoccerBall.pass(targetPosition, passType, passer)`: distance-scaled
power, pass-type lift, then a `kick` along the normalized direction. -/
noncomputable def pass (b : Ball) (target : Vec3) (passType : PassType)
    (passer : Soccer.Team) : Ball :=
  let direction := Vec3.sub target b.position
  let distance := direction.len
  let power := min 1.8 (0.3 + distance * 0.04)
  let lift : ℝ :=
    match passType with
    | PassType.lob => 0.6 + distance * 0.02
    | PassType.chip => 0.3
    | PassType.ground => 0
  let b := kick b direction.normalize power 0 passer lift
  { b with lastTouchedBy := some passer }

/-- `SoccerBall.shoot(direction, power, curve, shooter, lift)`: a `kick` at
2.5× power with the curve as spin. -/
noncomputable def shoot (b : Ball) (direction : Vec3) (power curve : ℝ)
    (shooter : Soccer.Team) (lift : ℝ) : Ball :=
  kick b direction (power * 2.5) curve shooter lift

/-- A grounded ball at the origin with zeroed motion (the state after
`reset(0, 0)`). -/
def ball0 : Ball :=
  { position := ⟨0, 0, 0⟩, velocity := ⟨0, 0, 0⟩, spin := ⟨0, 0, 0⟩
    isGrounded := true, height := 0, airTime := 0, lastTouchedBy := none }

/-- A grounded ball moving laterally at speed 200 (counterexample input). -/
def fastBall : Ball :=
  { position := ⟨0, 0, 0⟩, velocity := ⟨200, 0, 0⟩, spin := ⟨0, 0, 0⟩
    isGrounded := true, height := 0, airTime := 0, lastTouchedBy := none }

/-- A grounded ball rolling laterally at speed 1 (witness input). -/
def rollingBall : Ball :=
  { position := ⟨0, 0, 0⟩, velocity := ⟨1, 0, 0⟩, spin := ⟨0, 0, 0⟩
    isGrounded := true, height := 0, airTime := 0, lastTouchedBy := none }

/-- Proof-layer abbreviation: the state of a ball rolling on the ground — on
the pitch (`position.z = 0`, grounded), with no vertical motion and spin at
or below the Magnus epsilon `0.01`. -/
def Rolling (b : Ball) : Prop :=
  b.isGrounded = true ∧ b.position.z = 0 ∧ b.velocity.z = 0 ∧ b.spin.len ≤ 0.01

/-- Proof-layer abbreviation: the combined drag-and-friction multiplier one
`update` tick applies to the horizontal velocity of a rolling ball whose
horizontal speed is `s`. -/
noncomputable def groundFactor (s : ℝ) : ℝ :=
  (if 0.01 < s then 1 - dragCoeff * s else 1) * friction

end SoccerBall

/-! ## Theorems -/

/-- C1: `FootballRules.endPlay(endX)` in phase `PLAY_ACTIVE` with
`endX ≥ 50` adds exactly 6 to the possessing team's score, leaves the other
team's score unchanged, flips possession, makes the scoring team the kicking
team, and moves the phase to `KICKOFF`. -/
theorem football_touchdown_on_endPlay (s : Football.Rules) (endX : ℚ)
    (hphase : s.playState = Football.PlayState.PLAY_ACTIVE)
    (hx : endX ≥ 50) :
    (Football.endPlay s endX).scoreOf s.possession = s.scoreOf s.possession + 6 ∧
    (Football.endPlay s endX).scoreOf s.possession.other = s.scoreOf s.possession.other ∧
    (Football.endPlay s endX).possession = s.possession.other ∧
    (Football.endPlay s endX).kickingTeam = s.possession ∧
    (Football.endPlay s endX).playState = Football.PlayState.KICKOFF := by
  have h1 : Football.endPlay s endX =
      Football.scoreTouchdown { s with lineOfScrimmage := endX } := by
    simp [Football.endPlay, hphase, Football.isTouchdown, hx]
  rw [h1]
  cases hp : s.possession <;>
    simp [Football.scoreTouchdown, Football.setupKickoff, Football.Rules.scoreOf,
      Football.Team.other, hp]

/-- Witness for C1: an active play from the home-possession drive start,
ended at field coordinate 55. -/
theorem football_touchdown_on_endPlay_witness :
    (Football.endPlay (Football.withPlayActive (Football.driveStart Football.Team.home)) 55).scoreOf
        (Football.withPlayActive (Football.driveStart Football.Team.home)).possession =
      (Football.withPlayActive (Football.driveStart Football.Team.home)).scoreOf
        (Football.withPlayActive (Football.driveStart Football.Team.home)).possession + 6 ∧
    (Football.endPlay (Football.withPlayActive (Football.driveStart Football.Team.home)) 55).scoreOf
        (Football.withPlayActive (Football.driveStart Football.Team.home)).possession.other =
      (Football.withPlayActive (Football.driveStart Football.Team.home)).scoreOf
        (Football.withPlayActive (Football.driveStart Football.Team.home)).possession.other ∧
    (Football.endPlay (Football.withPlayActive (Football.driveStart Football.Team.home)) 55).possession =
      (Football.withPlayActive (Football.driveStart Football.Team.home)).possession.other ∧
    (Football.endPlay (Football.withPlayActive (Football.driveStart Football.Team.home)) 55).kickingTeam =
      (Football.withPlayActive (Football.driveStart Football.Team.home)).possession ∧
    (Football.endPlay (Football.withPlayActive (Football.driveStart Football.Team.home)) 55).playState =
      Football.PlayState.KICKOFF :=
  football_touchdown_on_endPlay (Football.withPlayActive (Football.driveStart Football.Team.home)) 55
    rfl (by norm_num)

/-- C2: from a drive started at −40 (down 1, distance 10), four plays each
gaining exactly 1 yard (ended at −39, −38, −37, −36, each from phase
`PLAY_ACTIVE`) increment the down and recompute the remaining distance as
`firstDownLine − lineOfScrimmage` on each non-converting play, and the fourth
play triggers a turnover: possession flips and the new drive starts at the
same spot (−36) with down 1 and distance 10. -/
theorem football_turnover_on_downs_scenario (p : Football.Team) :
    let d0 := Football.startNewDrive (Football.driveStart p) (-40)
    let d1 := Football.endPlay (Football.withPlayActive d0) (-39)
    let d2 := Football.endPlay (Football.withPlayActive d1) (-38)
    let d3 := Football.endPlay (Football.withPlayActive d2) (-37)
    let d4 := Football.endPlay (Football.withPlayActive d3) (-36)
    d0.lineOfScrimmage = -40 ∧ d0.down = 1 ∧ d0.distanceToFirst = 10 ∧
    d1.down = 2 ∧ d1.distanceToFirst = 9 ∧
    d2.down = 3 ∧ d2.distanceToFirst = 8 ∧
    d3.down = 4 ∧ d3.distanceToFirst = 7 ∧
    d4.possession = p.other ∧ d4.lineOfScrimmage = -36 ∧
    d4.down = 1 ∧ d4.distanceToFirst = 10 := by
  have h0 : Football.startNewDrive (Football.driveStart p) (-40) =
      ⟨1, 10, -40, -30, 0, 0, Football.PlayState.WHISTLE, p, p.other⟩ := by
    simp [Football.startNewDrive, Football.driveStart, Football.calculateFirstDownLine]
    norm_num
  have h1 : Football.endPlay
      (Football.withPlayActive ⟨1, 10, -40, -30, 0, 0, Football.PlayState.WHISTLE, p, p.other⟩)
      (-39) = ⟨2, 9, -39, -30, 0, 0, Football.PlayState.WHISTLE, p, p.other⟩ := by
    simp [Football.endPlay, Football.withPlayActive, Football.calculateFirstDownLine,
      Football.isTouchdown, Football.isSafety, Football.turnoverOnDowns,
      Football.Team.other, Football.scoreTouchdown, Football.scoreSafety,
      Football.setupKickoff, Football.startNewDrive]
    norm_num
  have h2 : Football.endPlay
      (Football.withPlayActive ⟨2, 9, -39, -30, 0, 0, Football.PlayState.WHISTLE, p, p.other⟩)
      (-38) = ⟨3, 8, -38, -30, 0, 0, Football.PlayState.WHISTLE, p, p.other⟩ := by
    simp [Football.endPlay, Football.withPlayActive, Football.calculateFirstDownLine,
      Football.isTouchdown, Football.isSafety, Football.turnoverOnDowns,
      Football.Team.other, Football.scoreTouchdown, Football.scoreSafety,
      Football.setupKickoff, Football.startNewDrive]
    norm_num
  have h3 : Football.endPlay
      (Football.withPlayActive ⟨3, 8, -38, -30, 0, 0, Football.PlayState.WHISTLE, p, p.other⟩)
      (-37) = ⟨4, 7, -37, -30, 0, 0, Football.PlayState.WHISTLE, p, p.other⟩ := by
    simp [Football.endPlay, Football.withPlayActive, Football.calculateFirstDownLine,
      Football.isTouchdown, Football.isSafety, Football.turnoverOnDowns,
      Football.Team.other, Football.scoreTouchdown, Football.scoreSafety,
      Football.setupKickoff, Football.startNewDrive]
    norm_num
  have h4 : Football.endPlay
      (Football.withPlayActive ⟨4, 7, -37, -30, 0, 0, Football.PlayState.WHISTLE, p, p.other⟩)
      (-36) = ⟨1, 10, -36, -26, 0, 0, Football.PlayState.WHISTLE, p.other, p.other⟩ := by
    simp [Football.endPlay, Football.withPlayActive, Football.calculateFirstDownLine,
      Football.isTouchdown, Football.isSafety, Football.turnoverOnDowns,
      Football.Team.other, Football.scoreTouchdown, Football.scoreSafety,
      Football.setupKickoff, Football.startNewDrive]
    norm_num
  simp only [h0, h1, h2, h3, h4]
  norm_num

/-- C4: `SoccerRules.ballOutOfBounds` awards possession to the side opposing
the last toucher on every exit; a goal-line exit (left/right byline) becomes a
corner kick exactly when the attacking side for that byline touched it last
and a goal kick otherwise, and a sideline exit (top/bottom) becomes the
throw-in phase `OUT_OF_BOUNDS`. -/
theorem soccer_out_of_bounds_classification (s : Soccer.Rules) (t : Soccer.Team)
    (px py : ℚ) :
    ((Soccer.ballOutOfBounds s t Soccer.ExitSide.left px py).possession = t.other ∧
      (Soccer.ballOutOfBounds s t Soccer.ExitSide.left px py).playState =
        (if Soccer.attackerOf Soccer.ExitSide.left = some t then Soccer.PlayState.CORNER_KICK
         else Soccer.PlayState.GOAL_KICK)) ∧
    ((Soccer.ballOutOfBounds s t Soccer.ExitSide.right px py).possession = t.other ∧
      (Soccer.ballOutOfBounds s t Soccer.ExitSide.right px py).playState =
        (if Soccer.attackerOf Soccer.ExitSide.right = some t then Soccer.PlayState.CORNER_KICK
         else Soccer.PlayState.GOAL_KICK)) ∧
    ((Soccer.ballOutOfBounds s t Soccer.ExitSide.top px py).possession = t.other ∧
      (Soccer.ballOutOfBounds s t Soccer.ExitSide.top px py).playState =
        Soccer.PlayState.OUT_OF_BOUNDS) ∧
    ((Soccer.ballOutOfBounds s t Soccer.ExitSide.bottom px py).possession = t.other ∧
      (Soccer.ballOutOfBounds s t Soccer.ExitSide.bottom px py).playState =
        Soccer.PlayState.OUT_OF_BOUNDS) := by
  cases t <;>
    simp [Soccer.ballOutOfBounds, Soccer.attackerOf, Soccer.Team.other]

/-- C8 counterexample: `SoccerRules.scoreGoal` has no phase guard.  Called in
`GAME_OVER` — a phase in which scoring is surely not permitted — it still
increments the scorer's tally and moves the phase to `GOAL_SCORED`, so the
claim that an out-of-phase scoring call leaves every field unchanged is
false. -/
theorem soccer_scoreGoal_mutates_after_game_over :
    (Soccer.scoreGoal
        ⟨Soccer.PlayState.GAME_OVER, Soccer.Team.home, 0, 0, 360, 2, 0, 0, Soccer.Team.home⟩
        Soccer.Team.home).scoreHome = 1 ∧
    (⟨Soccer.PlayState.GAME_OVER, Soccer.Team.home, 0, 0, 360, 2, 0, 0,
        Soccer.Team.home⟩ : Soccer.Rules).scoreHome = 0 ∧
    (Soccer.scoreGoal
        ⟨Soccer.PlayState.GAME_OVER, Soccer.Team.home, 0, 0, 360, 2, 0, 0, Soccer.Team.home⟩
        Soccer.Team.home).playState = Soccer.PlayState.GOAL_SCORED := by
  simp [Soccer.scoreGoal]

/-- C8 (amended): the gridiron phase-specific actions are silent no-ops out
of phase — `snapBall` outside `PRE_SNAP` and `endPlay` outside
`PLAY_ACTIVE`/`KICKOFF` return the state unchanged and raise no fault — but
`SoccerRules.scoreGoal` is not phase-guarded: in every phase it increments
the scoring team's tally and sets the phase to `GOAL_SCORED`. -/
theorem out_of_phase_action_semantics :
    (∀ s : Football.Rules, s.playState ≠ Football.PlayState.PRE_SNAP →
      Football.snapBall s = s) ∧
    (∀ (s : Football.Rules) (x : ℚ), s.playState ≠ Football.PlayState.PLAY_ACTIVE →
      s.playState ≠ Football.PlayState.KICKOFF → Football.endPlay s x = s) ∧
    (∀ (s : Soccer.Rules) (t : Soccer.Team),
      (Soccer.scoreGoal s t).scoreOf t = s.scoreOf t + 1 ∧
      (Soccer.scoreGoal s t).playState = Soccer.PlayState.GOAL_SCORED) := by
  refine ⟨?_, ?_, ?_⟩
  · intro s h
    simp [Football.snapBall, h]
  · intro s x h1 h2
    simp [Football.endPlay, h1, h2]
  · intro s t
    cases t <;> simp [Soccer.scoreGoal, Soccer.Rules.scoreOf]

/-- Witness for C8 (amended): `snapBall` during `KICKOFF` and `endPlay`
during `WHISTLE` are no-ops; `scoreGoal` during `HALFTIME` still scores. -/
theorem out_of_phase_action_semantics_witness :
    Football.snapBall
        ⟨1, 10, -40, -30, 0, 0, Football.PlayState.KICKOFF, Football.Team.home, Football.Team.away⟩ =
      ⟨1, 10, -40, -30, 0, 0, Football.PlayState.KICKOFF, Football.Team.home, Football.Team.away⟩ ∧
    Football.endPlay
        ⟨1, 10, -40, -30, 0, 0, Football.PlayState.WHISTLE, Football.Team.home, Football.Team.away⟩ 3 =
      ⟨1, 10, -40, -30, 0, 0, Football.PlayState.WHISTLE, Football.Team.home, Football.Team.away⟩ ∧
    ((Soccer.scoreGoal
        ⟨Soccer.PlayState.HALFTIME, Soccer.Team.home, 0, 0, 180, 1, 0, 0, Soccer.Team.home⟩
        Soccer.Team.away).scoreOf Soccer.Team.away =
      (⟨Soccer.PlayState.HALFTIME, Soccer.Team.home, 0, 0, 180, 1, 0, 0,
          Soccer.Team.home⟩ : Soccer.Rules).scoreOf Soccer.Team.away + 1 ∧
     (Soccer.scoreGoal
        ⟨Soccer.PlayState.HALFTIME, Soccer.Team.home, 0, 0, 180, 1, 0, 0, Soccer.Team.home⟩
        Soccer.Team.away).playState = Soccer.PlayState.GOAL_SCORED) :=
  ⟨out_of_phase_action_semantics.1 _ (by decide),
   out_of_phase_action_semantics.2.1 _ 3 (by decide) (by decide),
   out_of_phase_action_semantics.2.2 _ _⟩

/-- C9: `SoccerRules.updateTime(delta)` changes nothing outside `PLAYING`;
in `PLAYING` it adds `delta` to the match clock, transitions to `HALFTIME`
when the first-half clock reaches `halfDuration` and to `GAME_OVER` when the
second-half clock reaches `2 × halfDuration`, staying in `PLAYING` otherwise,
and touches no score, possession, or half index. -/
theorem soccer_updateTime_spec :
    (∀ (s : Soccer.Rules) (d : ℚ), s.playState ≠ Soccer.PlayState.PLAYING →
      Soccer.updateTime s d = s) ∧
    (∀ (s : Soccer.Rules) (d : ℚ), s.playState = Soccer.PlayState.PLAYING →
      (Soccer.updateTime s d).matchTime = s.matchTime + d ∧
      (Soccer.updateTime s d).playState =
        (if s.currentHalf = 1 ∧ s.matchTime + d ≥ Soccer.halfDuration then
           Soccer.PlayState.HALFTIME
         else if s.currentHalf = 2 ∧ s.matchTime + d ≥ Soccer.halfDuration * 2 then
           Soccer.PlayState.GAME_OVER
         else Soccer.PlayState.PLAYING) ∧
      (Soccer.updateTime s d).scoreHome = s.scoreHome ∧
      (Soccer.updateTime s d).scoreAway = s.scoreAway ∧
      (Soccer.updateTime s d).possession = s.possession ∧
      (Soccer.updateTime s d).currentHalf = s.currentHalf) := by
  constructor
  · intro s d h
    simp [Soccer.updateTime, h]
  · intro s d h
    simp only [Soccer.updateTime, h, if_true]
    split_ifs <;> simp_all

/-- Witness for C9: `updateTime` is a no-op in `KICKOFF`, and in `PLAYING`
it adds the delta and consults the half-duration thresholds. -/
theorem soccer_updateTime_spec_witness :
    Soccer.updateTime
        ⟨Soccer.PlayState.KICKOFF, Soccer.Team.home, 0, 0, 0, 1, 0, 0, Soccer.Team.home⟩ 5 =
      ⟨Soccer.PlayState.KICKOFF, Soccer.Team.home, 0, 0, 0, 1, 0, 0, Soccer.Team.home⟩ ∧
    ((Soccer.updateTime
        ⟨Soccer.PlayState.PLAYING, Soccer.Team.home, 0, 0, 178, 1, 0, 0, Soccer.Team.home⟩ 5).matchTime =
      (⟨Soccer.PlayState.PLAYING, Soccer.Team.home, 0, 0, 178, 1, 0, 0,
          Soccer.Team.home⟩ : Soccer.Rules).matchTime + 5 ∧
     (Soccer.updateTime
        ⟨Soccer.PlayState.PLAYING, Soccer.Team.home, 0, 0, 178, 1, 0, 0, Soccer.Team.home⟩ 5).playState =
       (if (⟨Soccer.PlayState.PLAYING, Soccer.Team.home, 0, 0, 178, 1, 0, 0,
              Soccer.Team.home⟩ : Soccer.Rules).currentHalf = 1 ∧
            (⟨Soccer.PlayState.PLAYING, Soccer.Team.home, 0, 0, 178, 1, 0, 0,
              Soccer.Team.home⟩ : Soccer.Rules).matchTime + 5 ≥ Soccer.halfDuration then
          Soccer.PlayState.HALFTIME
        else if (⟨Soccer.PlayState.PLAYING, Soccer.Team.home, 0, 0, 178, 1, 0, 0,
              Soccer.Team.home⟩ : Soccer.Rules).currentHalf = 2 ∧
            (⟨Soccer.PlayState.PLAYING, Soccer.Team.home, 0, 0, 178, 1, 0, 0,
              Soccer.Team.home⟩ : Soccer.Rules).matchTime + 5 ≥ Soccer.halfDuration * 2 then
          Soccer.PlayState.GAME_OVER
        else Soccer.PlayState.PLAYING) ∧
     (Soccer.updateTime
        ⟨Soccer.PlayState.PLAYING, Soccer.Team.home, 0, 0, 178, 1, 0, 0, Soccer.Team.home⟩ 5).scoreHome =
       (⟨Soccer.PlayState.PLAYING, Soccer.Team.home, 0, 0, 178, 1, 0, 0,
          Soccer.Team.home⟩ : Soccer.Rules).scoreHome ∧
     (Soccer.updateTime
        ⟨Soccer.PlayState.PLAYING, Soccer.Team.home, 0, 0, 178, 1, 0, 0, Soccer.Team.home⟩ 5).scoreAway =
       (⟨Soccer.PlayState.PLAYING, Soccer.Team.home, 0, 0, 178, 1, 0, 0,
          Soccer.Team.home⟩ : Soccer.Rules).scoreAway ∧
     (Soccer.updateTime
        ⟨Soccer.PlayState.PLAYING, Soccer.Team.home, 0, 0, 178, 1, 0, 0, Soccer.Team.home⟩ 5).possession =
       (⟨Soccer.PlayState.PLAYING, Soccer.Team.home, 0, 0, 178, 1, 0, 0,
          Soccer.Team.home⟩ : Soccer.Rules).possession ∧
     (Soccer.updateTime
        ⟨Soccer.PlayState.PLAYING, Soccer.Team.home, 0, 0, 178, 1, 0, 0, Soccer.Team.home⟩ 5).currentHalf =
       (⟨Soccer.PlayState.PLAYING, Soccer.Team.home, 0, 0, 178, 1, 0, 0,
          Soccer.Team.home⟩ : Soccer.Rules).currentHalf) :=
  ⟨soccer_updateTime_spec.1 _ 5 (by decide), soccer_updateTime_spec.2 _ 5 rfl⟩

/-- C10: no public rules operation other than the explicit match resets ever
decreases either team's score — for the gridiron variant (`endPlay`,
`snapBall`, `startNewDrive`, `setupKickoff`, `performCoinFlip`,
`scoreTouchdown`, `scoreSafety`, `turnoverOnDowns`) and the pitch variant
(`scoreGoal`, `ballOutOfBounds`, `callFoul`, `updateTime`, `startKickoff`,
`startPlay`, `startSecondHalf`), each score component after the call is at
least its value before the call. -/
theorem scores_never_decrease :
    (∀ (s : Football.Rules) (x : ℚ),
      s.scoreHome ≤ (Football.endPlay s x).scoreHome ∧
      s.scoreAway ≤ (Football.endPlay s x).scoreAway) ∧
    (∀ s : Football.Rules,
      s.scoreHome ≤ (Football.snapBall s).scoreHome ∧
      s.scoreAway ≤ (Football.snapBall s).scoreAway) ∧
    (∀ (s : Football.Rules) (x : ℚ),
      s.scoreHome ≤ (Football.startNewDrive s x).scoreHome ∧
      s.scoreAway ≤ (Football.startNewDrive s x).scoreAway) ∧
    (∀ s : Football.Rules,
      s.scoreHome ≤ (Football.setupKickoff s).scoreHome ∧
      s.scoreAway ≤ (Football.setupKickoff s).scoreAway) ∧
    (∀ (s : Football.Rules) (call result : Bool),
      s.scoreHome ≤ (Football.performCoinFlip s call result).scoreHome ∧
      s.scoreAway ≤ (Football.performCoinFlip s call result).scoreAway) ∧
    (∀ s : Football.Rules,
      s.scoreHome ≤ (Football.scoreTouchdown s).scoreHome ∧
      s.scoreAway ≤ (Football.scoreTouchdown s).scoreAway) ∧
    (∀ s : Football.Rules,
      s.scoreHome ≤ (Football.scoreSafety s).scoreHome ∧
      s.scoreAway ≤ (Football.scoreSafety s).scoreAway) ∧
    (∀ s : Football.Rules,
      s.scoreHome ≤ (Football.turnoverOnDowns s).scoreHome ∧
      s.scoreAway ≤ (Football.turnoverOnDowns s).scoreAway) ∧
    (∀ (s : Soccer.Rules) (t : Soccer.Team),
      s.scoreHome ≤ (Soccer.scoreGoal s t).scoreHome ∧
      s.scoreAway ≤ (Soccer.scoreGoal s t).scoreAway) ∧
    (∀ (s : Soccer.Rules) (t : Soccer.Team) (side : Soccer.ExitSide) (px py : ℚ),
      s.scoreHome ≤ (Soccer.ballOutOfBounds s t side px py).scoreHome ∧
      s.scoreAway ≤ (Soccer.ballOutOfBounds s t side px py).scoreAway) ∧
    (∀ (s : Soccer.Rules) (t : Soccer.Team) (px py : ℚ) (inBox : Bool),
      s.scoreHome ≤ (Soccer.callFoul s t px py inBox).scoreHome ∧
      s.scoreAway ≤ (Soccer.callFoul s t px py inBox).scoreAway) ∧
    (∀ (s : Soccer.Rules) (d : ℚ),
      s.scoreHome ≤ (Soccer.updateTime s d).scoreHome ∧
      s.scoreAway ≤ (Soccer.updateTime s d).scoreAway) ∧
    (∀ (s : Soccer.Rules) (t : Soccer.Team),
      s.scoreHome ≤ (Soccer.startKickoff s t).scoreHome ∧
      s.scoreAway ≤ (Soccer.startKickoff s t).scoreAway) ∧
    (∀ s : Soccer.Rules,
      s.scoreHome ≤ (Soccer.startPlay s).scoreHome ∧
      s.scoreAway ≤ (Soccer.startPlay s).scoreAway) ∧
    (∀ s : Soccer.Rules,
      s.scoreHome ≤ (Soccer.startSecondHalf s).scoreHome ∧
      s.scoreAway ≤ (Soccer.startSecondHalf s).scoreAway) := by
  refine ⟨?_, ?_, ?_, ?_, ?_, ?_, ?_, ?_, ?_, ?_, ?_, ?_, ?_, ?_, ?_⟩ <;> intros <;>
    first
    | (constructor <;>
        (simp only [Football.endPlay, Football.snapBall, Football.startNewDrive,
          Football.setupKickoff, Football.performCoinFlip, Football.scoreTouchdown,
          Football.scoreSafety, Football.turnoverOnDowns, Football.calculateFirstDownLine,
          Soccer.scoreGoal, Soccer.ballOutOfBounds, Soccer.callFoul, Soccer.updateTime,
          Soccer.startKickoff, Soccer.startPlay, Soccer.startSecondHalf]
         first
         | (split_ifs <;> simp)
         | simp))

/-- The spec's clamp written min-of-max: `clamp x lo hi = min hi (max lo x)`
whenever `lo ≤ hi`. -/
theorem tackle_clamp_eq (x lo hi : ℝ) (h : lo ≤ hi) :
    Tackle.clamp x lo hi = min hi (max lo x) := by
  rw [Tackle.clamp, max_min_distrib_left, max_eq_right h]

/-- The spec's angle-bucket phrasing (≤60° front, ≤120° side, otherwise
behind) agrees with the source's conditional. -/
theorem tackle_angleMod_eq (a : ℝ) :
    (if a ≤ 60 then (1.0 : ℝ) else if a ≤ 120 then 0.75 else 0.5) =
    (if a > 120 then (0.5 : ℝ) else if a > 60 then 0.75 else 1.0) := by
  split_ifs <;> first | rfl | linarith

/-- C3: for a tackler/carrier pair within tackle range with a positive
carrier mass, the tackle power `attemptTackle` computes equals the spec's
formula (angle modifier × speed modifier × mass modifier × 0.5, clamped to
[0,1], with the spec's speed and mass modifiers) and lies in [0,1], and the
break-tackle chance equals the spec's clamp((0.1 + carrierSpeed×0.2 +
(carrierMass−1)×0.1) × (1 − tacklePower), 0, 0.5) and lies in [0, 0.5]. -/
theorem tackle_power_and_break_chance (tackler carrier : Tackle.TackleEntity)
    (hrange : tackler.position.distanceTo carrier.position ≤ Tackle.TACKLE_RANGE)
    (hmass : 0 < carrier.mass) :
    Tackle.tacklePowerOf tackler carrier =
      Tackle.specTacklePower (Tackle.calculateApproachAngle tackler carrier)
        (Tackle.closingSpeed tackler carrier) tackler.mass carrier.mass ∧
    0 ≤ Tackle.tacklePowerOf tackler carrier ∧
    Tackle.tacklePowerOf tackler carrier ≤ 1 ∧
    Tackle.calculateBreakTackleChance carrier (Tackle.tacklePowerOf tackler carrier) =
      Tackle.specBreakChance carrier.velocity.len carrier.mass
        (Tackle.tacklePowerOf tackler carrier) ∧
    0 ≤ Tackle.calculateBreakTackleChance carrier (Tackle.tacklePowerOf tackler carrier) ∧
    Tackle.calculateBreakTackleChance carrier (Tackle.tacklePowerOf tackler carrier) ≤ 1 / 2 := by
  have hhalf : (0.5 : ℝ) ≤ 1.5 := by norm_num
  have h01 : (0 : ℝ) ≤ 1 := by norm_num
  have h005 : (0 : ℝ) ≤ 0.5 := by norm_num
  have hone : (1.0 : ℝ) = 1 := by norm_num
  refine ⟨?_, ?_, ?_, ?_, ?_, ?_⟩
  · simp only [Tackle.tacklePowerOf, Tackle.calculateTacklePower, Tackle.specTacklePower]
    rw [tackle_clamp_eq (tackler.mass / carrier.mass) 0.5 1.5 hhalf]
    rw [tackle_clamp_eq _ 0 1 h01]
    rw [tackle_angleMod_eq (Tackle.calculateApproachAngle tackler carrier)]
    rw [hone]
  · simp only [Tackle.tacklePowerOf, Tackle.calculateTacklePower]
    exact le_min (by norm_num) (le_max_left _ _)
  · simp only [Tackle.tacklePowerOf, Tackle.calculateTacklePower]
    exact (min_le_left _ _).trans (by norm_num)
  · simp only [Tackle.calculateBreakTackleChance, Tackle.specBreakChance]
    rw [tackle_clamp_eq _ 0 0.5 h005]
    rw [hone]
  · simp only [Tackle.calculateBreakTackleChance]
    exact le_min (by norm_num) (le_max_left _ _)
  · simp only [Tackle.calculateBreakTackleChance]
    exact (min_le_left _ _).trans (by norm_num)

/-- Witness for C3: a stationary tackler at the origin and a stationary
carrier one unit away (well inside the 1.2 tackle range), both of mass 1. -/
theorem tackle_power_and_break_chance_witness :
    Tackle.tacklePowerOf ⟨⟨0, 0, 0⟩, ⟨0, 0, 0⟩, 1⟩ ⟨⟨1, 0, 0⟩, ⟨0, 0, 0⟩, 1⟩ =
      Tackle.specTacklePower
        (Tackle.calculateApproachAngle ⟨⟨0, 0, 0⟩, ⟨0, 0, 0⟩, 1⟩ ⟨⟨1, 0, 0⟩, ⟨0, 0, 0⟩, 1⟩)
        (Tackle.closingSpeed ⟨⟨0, 0, 0⟩, ⟨0, 0, 0⟩, 1⟩ ⟨⟨1, 0, 0⟩, ⟨0, 0, 0⟩, 1⟩)
        (Tackle.TackleEntity.mass ⟨⟨0, 0, 0⟩, ⟨0, 0, 0⟩, 1⟩)
        (Tackle.TackleEntity.mass ⟨⟨1, 0, 0⟩, ⟨0, 0, 0⟩, 1⟩) ∧
    0 ≤ Tackle.tacklePowerOf ⟨⟨0, 0, 0⟩, ⟨0, 0, 0⟩, 1⟩ ⟨⟨1, 0, 0⟩, ⟨0, 0, 0⟩, 1⟩ ∧
    Tackle.tacklePowerOf ⟨⟨0, 0, 0⟩, ⟨0, 0, 0⟩, 1⟩ ⟨⟨1, 0, 0⟩, ⟨0, 0, 0⟩, 1⟩ ≤ 1 ∧
    Tackle.calculateBreakTackleChance ⟨⟨1, 0, 0⟩, ⟨0, 0, 0⟩, 1⟩
        (Tackle.tacklePowerOf ⟨⟨0, 0, 0⟩, ⟨0, 0, 0⟩, 1⟩ ⟨⟨1, 0, 0⟩, ⟨0, 0, 0⟩, 1⟩) =
      Tackle.specBreakChance (Vec3.len ⟨0, 0, 0⟩) (Tackle.TackleEntity.mass ⟨⟨1, 0, 0⟩, ⟨0, 0, 0⟩, 1⟩)
        (Tackle.tacklePowerOf ⟨⟨0, 0, 0⟩, ⟨0, 0, 0⟩, 1⟩ ⟨⟨1, 0, 0⟩, ⟨0, 0, 0⟩, 1⟩) ∧
    0 ≤ Tackle.calculateBreakTackleChance ⟨⟨1, 0, 0⟩, ⟨0, 0, 0⟩, 1⟩
        (Tackle.tacklePowerOf ⟨⟨0, 0, 0⟩, ⟨0, 0, 0⟩, 1⟩ ⟨⟨1, 0, 0⟩, ⟨0, 0, 0⟩, 1⟩) ∧
    Tackle.calculateBreakTackleChance ⟨⟨1, 0, 0⟩, ⟨0, 0, 0⟩, 1⟩
        (Tackle.tacklePowerOf ⟨⟨0, 0, 0⟩, ⟨0, 0, 0⟩, 1⟩ ⟨⟨1, 0, 0⟩, ⟨0, 0, 0⟩, 1⟩) ≤ 1 / 2 :=
  tackle_power_and_break_chance ⟨⟨0, 0, 0⟩, ⟨0, 0, 0⟩, 1⟩ ⟨⟨1, 0, 0⟩, ⟨0, 0, 0⟩, 1⟩
    (by
      simp only [Vec3.distanceTo, Vec3.sub, Vec3.len, Tackle.TACKLE_RANGE]
      norm_num)
    (by norm_num)

/-- C5: holding closing speed and masses fixed (closing speed nonnegative,
as it is a vector length), the computed tackle power is monotone
non-increasing across the front (≤60°) / side (≤120°) / behind (>120°)
angle buckets; in particular a front approach never yields lower power than
the otherwise-identical behind approach. -/
theorem tackle_power_angle_monotone (a1 a2 a3 cs tm cm : ℝ)
    (hcs : 0 ≤ cs) (h1 : a1 ≤ 60) (h2 : 60 < a2) (h2b : a2 ≤ 120) (h3 : 120 < a3) :
    Tackle.calculateTacklePower a3 cs tm cm ≤ Tackle.calculateTacklePower a2 cs tm cm ∧
    Tackle.calculateTacklePower a2 cs tm cm ≤ Tackle.calculateTacklePower a1 cs tm cm := by
  have hsm : (0 : ℝ) ≤ min 1.5 (0.5 + cs * 2) := le_min (by norm_num) (by linarith)
  have hmm : (0 : ℝ) ≤ min 1.5 (max 0.5 (tm / cm)) :=
    le_min (by norm_num) (le_trans (by norm_num) (le_max_left _ _))
  have hprod : (0 : ℝ) ≤ min 1.5 (0.5 + cs * 2) * min 1.5 (max 0.5 (tm / cm)) :=
    mul_nonneg hsm hmm
  simp only [Tackle.calculateTacklePower]
  rw [if_pos h3, if_neg (by linarith : ¬a2 > 120), if_pos h2,
    if_neg (by linarith : ¬a1 > 120), if_neg (by linarith : ¬a1 > 60)]
  constructor <;>
    exact min_le_min (le_refl _) (max_le_max (le_refl _) (by nlinarith [hprod]))

/-- Witness for C5: a front (0°), side (90°) and behind (150°) approach at
closing speed 1 with equal masses. -/
theorem tackle_power_angle_monotone_witness :
    Tackle.calculateTacklePower 150 1 1 1 ≤ Tackle.calculateTacklePower 90 1 1 1 ∧
    Tackle.calculateTacklePower 90 1 1 1 ≤ Tackle.calculateTacklePower 0 1 1 1 :=
  tackle_power_angle_monotone 0 90 150 1 1 1 (by norm_num) (by norm_num) (by norm_num)
    (by norm_num) (by norm_num)

/-- Scaling both coordinates scales the 2-norm by the absolute factor. -/
theorem sqrt_sq_add_sq_scaled (f x y : ℝ) :
    Real.sqrt ((f * x) ^ 2 + (f * y) ^ 2) = |f| * Real.sqrt (x ^ 2 + y ^ 2) := by
  rw [show (f * x) ^ 2 + (f * y) ^ 2 = f ^ 2 * (x ^ 2 + y ^ 2) by ring,
    Real.sqrt_mul (sq_nonneg f), Real.sqrt_sq_eq_abs]

/-- With no vertical velocity, the 3D speed is the horizontal speed. -/
theorem ball_len_eq_hSpeed (b : SoccerBall.Ball) (hvz : b.velocity.z = 0) :
    b.velocity.len = SoccerBall.hSpeed b := by
  rw [Vec3.len, SoccerBall.hSpeed, hvz]
  norm_num

/-- A scaled vector's length is the length scaled by the absolute factor. -/
theorem vec3_len_smul (c : ℝ) (v : Vec3) : (Vec3.smul c v).len = |c| * v.len := by
  rw [Vec3.len, Vec3.smul, Vec3.len,
    show (c * v.x) ^ 2 + (c * v.y) ^ 2 + (c * v.z) ^ 2 =
      c ^ 2 * (v.x ^ 2 + v.y ^ 2 + v.z ^ 2) by ring,
    Real.sqrt_mul (sq_nonneg c), Real.sqrt_sq_eq_abs]

/-- Gravity is skipped for a grounded ball. -/
theorem applyAirGravity_grounded (b : SoccerBall.Ball) (dt : ℝ)
    (hg : b.isGrounded = true) : SoccerBall.applyAirGravity b dt = b := by
  rw [SoccerBall.applyAirGravity, if_pos hg]

/-- The Magnus force is skipped at spin magnitude at most the 0.01 epsilon. -/
theorem applyMagnus_small (b : SoccerBall.Ball) (hspin : b.spin.len ≤ 0.01) :
    SoccerBall.applyMagnus b = b := by
  rw [SoccerBall.applyMagnus, if_neg (not_lt.mpr hspin)]

/-- Drag is skipped at total speed at most 0.01. -/
theorem applyDrag_slow (b : SoccerBall.Ball) (h : ¬b.velocity.len > 0.01) :
    SoccerBall.applyDrag b = b := by
  rw [SoccerBall.applyDrag]
  exact if_neg h

/-- For a grounded ball above the drag threshold, the quadratic drag step
multiplies the whole velocity by `1 − dragCoeff × speed`. -/
theorem applyDrag_grounded_fast (b : SoccerBall.Ball) (hg : b.isGrounded = true)
    (h : b.velocity.len > 0.01) :
    SoccerBall.applyDrag b =
      { b with velocity := Vec3.smul (1 - SoccerBall.dragCoeff * b.velocity.len) b.velocity } := by
  have hL : b.velocity.len ≠ 0 := ne_of_gt (lt_trans (by norm_num) h)
  rw [SoccerBall.applyDrag]
  simp only [hg, if_pos h, if_true]
  congr 1
  simp only [Vec3.normalize, Vec3.add, Vec3.smul, if_neg hL, Vec3.mk.injEq]
  refine ⟨?_, ?_, ?_⟩ <;> field_simp <;> ring

/-- Ground friction multiplies the horizontal velocity of a grounded ball. -/
theorem applyGroundFriction_grounded (b : SoccerBall.Ball) (hg : b.isGrounded = true) :
    SoccerBall.applyGroundFriction b =
      { b with velocity := ⟨b.velocity.x * SoccerBall.friction,
                            b.velocity.y * SoccerBall.friction, b.velocity.z⟩ } := by
  rw [SoccerBall.applyGroundFriction, if_pos hg]

/-- A grounded ball at or below ground level settles: height clamped to 0,
vertical velocity zeroed, grounded flag kept, air time reset. -/
theorem resolveGround_settle (b : SoccerBall.Ball) (r : ℝ)
    (hpz : b.position.z ≤ 0) (hg : b.isGrounded = true) :
    SoccerBall.resolveGround b r =
      { b with position := ⟨b.position.x, b.position.y, 0⟩
               velocity := ⟨b.velocity.x, b.velocity.y, 0⟩
               isGrounded := true, airTime := 0 } := by
  rw [SoccerBall.resolveGround, if_pos hpz]
  simp [hg]

set_option maxHeartbeats 1000000 in
/-- One `update` tick of a rolling ball (grounded at height 0, no vertical
velocity, spin at most the Magnus epsilon): the horizontal velocity is scaled
by the drag/friction factor and hard-zeroed under the stop threshold, the
position advances by the post-drag velocity, the ball stays settled, and the
spin decays (hard-zeroed under its own threshold). -/
theorem update_rolling (b : SoccerBall.Ball) (dt r : ℝ) (hb : SoccerBall.Rolling b) :
    SoccerBall.update b dt r =
      { position := ⟨b.position.x + SoccerBall.groundFactor (SoccerBall.hSpeed b) * b.velocity.x,
                     b.position.y + SoccerBall.groundFactor (SoccerBall.hSpeed b) * b.velocity.y, 0⟩
        velocity := if SoccerBall.hSpeed b < 0.005 then ⟨0, 0, 0⟩
                    else ⟨SoccerBall.groundFactor (SoccerBall.hSpeed b) * b.velocity.x,
                          SoccerBall.groundFactor (SoccerBall.hSpeed b) * b.velocity.y, 0⟩
        spin := if (Vec3.smul SoccerBall.angularDrag b.spin).len < 0.001 then ⟨0, 0, 0⟩
                else Vec3.smul SoccerBall.angularDrag b.spin
        isGrounded := true
        height := 0
        airTime := 0
        lastTouchedBy := b.lastTouchedBy } := by
  obtain ⟨hg, hpz, hvz, hspin⟩ := hb
  obtain ⟨⟨px, py, pz⟩, ⟨vx, vy, vz⟩, sp, g, ht, atm, lt⟩ := b
  simp only at hg hpz hvz hspin
  subst hg
  subst hpz
  subst hvz
  have hlen0 : Vec3.len ⟨vx, vy, 0⟩ = Real.sqrt (vx ^ 2 + vy ^ 2) := by
    rw [Vec3.len]
    norm_num
  have cMag : (Vec3.len sp > 0.01) = False := eq_false (not_lt.mpr hspin)
  rcases lt_or_le 0.01 (Real.sqrt (vx ^ 2 + vy ^ 2)) with hfast | hslow
  · have cDrag : ((0.01 : ℝ) < Real.sqrt (vx ^ 2 + vy ^ 2)) = True := eq_true hfast
    have cNe : (Real.sqrt (vx ^ 2 + vy ^ 2) = 0) = False :=
      eq_false (ne_of_gt (lt_trans (by norm_num) hfast))
    have hne : Real.sqrt (vx ^ 2 + vy ^ 2) ≠ 0 := ne_of_gt (lt_trans (by norm_num) hfast)
    simp only [SoccerBall.update, SoccerBall.applyAirGravity, SoccerBall.applyMagnus,
      SoccerBall.applyDrag, SoccerBall.applyGroundFriction, SoccerBall.decaySpin,
      SoccerBall.integratePosition, SoccerBall.resolveGround, SoccerBall.setHeight,
      SoccerBall.applyStopThresholds, SoccerBall.hSpeed, SoccerBall.groundFactor,
      Vec3.normalize, Vec3.add, Vec3.smul, hlen0, cMag, cDrag, cNe,
      if_true, if_false, Bool.true_eq_false, false_and, and_false, true_and,
      zero_div, mul_zero, zero_mul, add_zero, zero_add, le_refl, max_self,
      eq_self_iff_true, reduceIte]
    split_ifs <;> ext <;> field_simp <;> ring
  · have cDrag : ((0.01 : ℝ) < Real.sqrt (vx ^ 2 + vy ^ 2)) = False := eq_false (not_lt.mpr hslow)
    simp only [SoccerBall.update, SoccerBall.applyAirGravity, SoccerBall.applyMagnus,
      SoccerBall.applyDrag, SoccerBall.applyGroundFriction, SoccerBall.decaySpin,
      SoccerBall.integratePosition, SoccerBall.resolveGround, SoccerBall.setHeight,
      SoccerBall.applyStopThresholds, SoccerBall.hSpeed, SoccerBall.groundFactor,
      Vec3.normalize, Vec3.add, Vec3.smul, hlen0, cMag, cDrag,
      if_true, if_false, Bool.true_eq_false, false_and, and_false, true_and,
      zero_div, mul_zero, zero_mul, add_zero, zero_add, le_refl, max_self,
      eq_self_iff_true, reduceIte]
    split_ifs <;> ext <;> field_simp <;> ring

/-- Horizontal speed after one tick on a rolling ball: zero below the stop
threshold, otherwise the old speed scaled by the drag/friction factor. -/
theorem hSpeed_update_rolling (b : SoccerBall.Ball) (dt r : ℝ)
    (hb : SoccerBall.Rolling b) :
    SoccerBall.hSpeed (SoccerBall.update b dt r) =
      if SoccerBall.hSpeed b < 0.005 then 0
      else |SoccerBall.groundFactor (SoccerBall.hSpeed b)| * SoccerBall.hSpeed b := by
  rw [update_rolling b dt r hb]
  simp only [SoccerBall.hSpeed]
  split_ifs with h
  · norm_num
  · exact sqrt_sq_add_sq_scaled _ _ _

/-- A rolling ball stays rolling after one tick. -/
theorem rolling_update (b : SoccerBall.Ball) (dt r : ℝ) (hb : SoccerBall.Rolling b) :
    SoccerBall.Rolling (SoccerBall.update b dt r) := by
  have hsp := hb.2.2.2
  have hsp0 : (0 : ℝ) ≤ b.spin.len := Real.sqrt_nonneg _
  rw [update_rolling b dt r hb]
  refine ⟨rfl, rfl, ?_, ?_⟩
  · simp only
    split_ifs <;> rfl
  · simp only
    split_ifs
    · rw [Vec3.len]
      norm_num
    · rw [vec3_len_smul, SoccerBall.angularDrag]
      rw [abs_of_pos (by norm_num)]
      nlinarith

/-- Drag/friction factor bounds at horizontal speed in [0, 60]: positive and
at most the friction constant 0.92. -/
theorem groundFactor_bounds (s : ℝ) (h0 : 0 ≤ s) (h60 : s ≤ 60) :
    0 < SoccerBall.groundFactor s ∧ SoccerBall.groundFactor s ≤ 0.92 := by
  rw [SoccerBall.groundFactor, SoccerBall.dragCoeff, SoccerBall.friction]
  split_ifs with h
  · constructor <;> nlinarith
  · constructor <;> norm_num

/-- Per-tick speed contraction on a rolling ball with speed at most 60: the
new speed is at most 0.92 of the old, and strictly smaller while nonzero. -/
theorem hSpeed_step (b : SoccerBall.Ball) (dt r : ℝ) (hb : SoccerBall.Rolling b)
    (h60 : SoccerBall.hSpeed b ≤ 60) :
    SoccerBall.hSpeed (SoccerBall.update b dt r) ≤ 0.92 * SoccerBall.hSpeed b ∧
    (0 < SoccerBall.hSpeed b →
      SoccerBall.hSpeed (SoccerBall.update b dt r) < SoccerBall.hSpeed b) := by
  have h0 : (0 : ℝ) ≤ SoccerBall.hSpeed b := Real.sqrt_nonneg _
  obtain ⟨hgf0, hgf92⟩ := groundFactor_bounds (SoccerBall.hSpeed b) h0 h60
  have habs : |SoccerBall.groundFactor (SoccerBall.hSpeed b)| ≤ 0.92 := by
    rw [abs_of_pos hgf0]
    exact hgf92
  rw [hSpeed_update_rolling b dt r hb]
  split_ifs with h
  · exact ⟨by nlinarith, fun h' => h'⟩
  · constructor
    · exact mul_le_mul_of_nonneg_right habs h0
    · intro h'
      nlinarith

/-- Along iterated ticks a rolling ball with speed at most 60 stays rolling
and its speed is bounded by a geometric envelope. -/
theorem iterate_rolling_bound (b : SoccerBall.Ball) (dts rands : ℕ → ℝ)
    (hb : SoccerBall.Rolling b) (h60 : SoccerBall.hSpeed b ≤ 60) (n : ℕ) :
    SoccerBall.Rolling (SoccerBall.iterate b dts rands n) ∧
    SoccerBall.hSpeed (SoccerBall.iterate b dts rands n) ≤
      0.92 ^ n * SoccerBall.hSpeed b := by
  induction n with
  | zero => exact ⟨hb, by simp [SoccerBall.iterate]⟩
  | succ n ih =>
    have hpow : (0.92 : ℝ) ^ n ≤ 1 := pow_le_one₀ (by norm_num) (by norm_num)
    have h0 : (0 : ℝ) ≤ SoccerBall.hSpeed b := Real.sqrt_nonneg _
    have hlen : SoccerBall.hSpeed (SoccerBall.iterate b dts rands n) ≤ 60 := by
      nlinarith [ih.2]
    refine ⟨rolling_update _ _ _ ih.1, ?_⟩
    have hstep := (hSpeed_step (SoccerBall.iterate b dts rands n) (dts n) (rands n)
      ih.1 hlen).1
    calc SoccerBall.hSpeed (SoccerBall.iterate b dts rands (n + 1)) ≤
        0.92 * SoccerBall.hSpeed (SoccerBall.iterate b dts rands n) := hstep
      _ ≤ 0.92 * (0.92 ^ n * SoccerBall.hSpeed b) := by nlinarith [ih.2]
      _ = 0.92 ^ (n + 1) * SoccerBall.hSpeed b := by ring

/-- A rolling ball at rest stays at rest across a tick. -/
theorem hSpeed_zero_step (b : SoccerBall.Ball) (dt r : ℝ)
    (hb : SoccerBall.Rolling b) (h : SoccerBall.hSpeed b = 0) :
    SoccerBall.hSpeed (SoccerBall.update b dt r) = 0 := by
  rw [hSpeed_update_rolling b dt r hb, if_pos (by rw [h]; norm_num)]

/-- Geometric envelope fact: 126 ticks of 0.92-contraction take speed 60
under the 0.005 stop threshold. -/
theorem pow_contraction_bound : (0.92 : ℝ) ^ 126 * 60 < 0.005 := by
  have h9 : (0.92 : ℝ) ^ 9 < 1 / 2 := by norm_num
  have h126 : (0.92 : ℝ) ^ 126 = ((0.92 : ℝ) ^ 9) ^ 14 := by ring
  have hnn : (0 : ℝ) ≤ (0.92 : ℝ) ^ 9 := by positivity
  have h14 : ((0.92 : ℝ) ^ 9) ^ 14 ≤ (1 / 2) ^ 14 :=
    pow_le_pow_left₀ hnn (le_of_lt h9) 14
  have : (0.92 : ℝ) ^ 126 ≤ (1 / 2) ^ 14 := by rw [h126]; exact h14
  nlinarith [this]

/-- C6 (amended): for a grounded ball at height 0 with no vertical velocity,
spin at most the Magnus epsilon 0.01, and nonzero horizontal speed at most
60, receiving no further impulses, every `update` tick strictly decreases the
horizontal speed while it is nonzero, and the speed is exactly zero from tick
127 on (the sub-threshold speed is hard-zeroed). -/
theorem ball_ground_speed_decay (b : SoccerBall.Ball) (dts rands : ℕ → ℝ)
    (hg : b.isGrounded = true) (hpz : b.position.z = 0) (hvz : b.velocity.z = 0)
    (hspin : b.spin.len ≤ 0.01) (hpos : 0 < SoccerBall.hSpeed b)
    (h60 : SoccerBall.hSpeed b ≤ 60) :
    (∀ n, 0 < SoccerBall.hSpeed (SoccerBall.iterate b dts rands n) →
      SoccerBall.hSpeed (SoccerBall.iterate b dts rands (n + 1)) <
        SoccerBall.hSpeed (SoccerBall.iterate b dts rands n)) ∧
    (∀ n, 127 ≤ n → SoccerBall.hSpeed (SoccerBall.iterate b dts rands n) = 0) := by
  have hb : SoccerBall.Rolling b := ⟨hg, hpz, hvz, hspin⟩
  have key := fun n => iterate_rolling_bound b dts rands hb h60 n
  have h0 : (0 : ℝ) ≤ SoccerBall.hSpeed b := Real.sqrt_nonneg _
  constructor
  · intro n hn
    have hpow : (0.92 : ℝ) ^ n ≤ 1 := pow_le_one₀ (by norm_num) (by norm_num)
    have hlen : SoccerBall.hSpeed (SoccerBall.iterate b dts rands n) ≤ 60 := by
      nlinarith [(key n).2]
    have hstep := hSpeed_step (SoccerBall.iterate b dts rands n) (dts n) (rands n)
      (key n).1 hlen
    rw [show SoccerBall.iterate b dts rands (n + 1) =
      SoccerBall.update (SoccerBall.iterate b dts rands n) (dts n) (rands n) from rfl]
    exact hstep.2 hn
  · have hp : (0 : ℝ) ≤ (0.92 : ℝ) ^ 126 := by positivity
    have h126 : SoccerBall.hSpeed (SoccerBall.iterate b dts rands 126) < 0.005 := by
      calc SoccerBall.hSpeed (SoccerBall.iterate b dts rands 126) ≤
          0.92 ^ 126 * SoccerBall.hSpeed b := (key 126).2
        _ ≤ 0.92 ^ 126 * 60 := by nlinarith
        _ < 0.005 := pow_contraction_bound
    have h127 : SoccerBall.hSpeed (SoccerBall.iterate b dts rands 127) = 0 := by
      rw [show SoccerBall.iterate b dts rands 127 =
        SoccerBall.update (SoccerBall.iterate b dts rands 126) (dts 126) (rands 126) from rfl]
      rw [hSpeed_update_rolling _ _ _ (key 126).1, if_pos h126]
    intro n hn
    induction n, hn using Nat.le_induction with
    | base => exact h127
    | succ n hn ih =>
      rw [show SoccerBall.iterate b dts rands (n + 1) =
        SoccerBall.update (SoccerBall.iterate b dts rands n) (dts n) (rands n) from rfl]
      exact hSpeed_zero_step _ _ _ (key n).1 ih

/-- Witness for C6 (amended): a ball rolling at unit speed with zero spin,
ticked with fixed 1/60 s deltas and zero random draws. -/
theorem ball_ground_speed_decay_witness :
    (∀ n, 0 < SoccerBall.hSpeed
        (SoccerBall.iterate SoccerBall.rollingBall (fun _ => 1 / 60) (fun _ => 0) n) →
      SoccerBall.hSpeed
        (SoccerBall.iterate SoccerBall.rollingBall (fun _ => 1 / 60) (fun _ => 0) (n + 1)) <
        SoccerBall.hSpeed
          (SoccerBall.iterate SoccerBall.rollingBall (fun _ => 1 / 60) (fun _ => 0) n)) ∧
    (∀ n, 127 ≤ n → SoccerBall.hSpeed
        (SoccerBall.iterate SoccerBall.rollingBall (fun _ => 1 / 60) (fun _ => 0) n) = 0) :=
  ball_ground_speed_decay SoccerBall.rollingBall (fun _ => 1 / 60) (fun _ => 0)
    rfl rfl rfl
    (by rw [show SoccerBall.rollingBall.spin = ⟨0, 0, 0⟩ from rfl, Vec3.len]
        norm_num)
    (by rw [SoccerBall.hSpeed, show SoccerBall.rollingBall.velocity = ⟨1, 0, 0⟩ from rfl]
        norm_num [Real.sqrt_one])
    (by rw [SoccerBall.hSpeed, show SoccerBall.rollingBall.velocity = ⟨1, 0, 0⟩ from rfl]
        norm_num [Real.sqrt_one])

/-- C6 counterexample: the claim quantifies over every grounded ball with
nonzero horizontal velocity, but at horizontal speed 200 the quadratic drag
overshoots (factor 1 − 0.015·200 = −2) and one `update` tick *increases* the
speed from 200 to 368, so speed is not strictly decreasing. -/
theorem ball_fast_speed_increases :
    SoccerBall.hSpeed SoccerBall.fastBall = 200 ∧
    SoccerBall.hSpeed (SoccerBall.update SoccerBall.fastBall 1 0) = 368 := by
  have h200 : SoccerBall.hSpeed SoccerBall.fastBall = 200 := by
    rw [SoccerBall.hSpeed]
    rw [show SoccerBall.fastBall.velocity = ⟨200, 0, 0⟩ from rfl]
    rw [show ((200 : ℝ) ^ 2 + (0 : ℝ) ^ 2) = 200 ^ 2 by norm_num]
    rw [Real.sqrt_sq (by norm_num : (0 : ℝ) ≤ 200)]
  have hb : SoccerBall.Rolling SoccerBall.fastBall := by
    refine ⟨rfl, rfl, rfl, ?_⟩
    rw [show SoccerBall.fastBall.spin = ⟨0, 0, 0⟩ from rfl, Vec3.len]
    norm_num
  refine ⟨h200, ?_⟩
  rw [hSpeed_update_rolling _ _ _ hb, h200]
  rw [if_neg (by norm_num : ¬(200 : ℝ) < 0.005)]
  rw [SoccerBall.groundFactor, if_pos (by norm_num : (0.01 : ℝ) < 200),
    SoccerBall.dragCoeff, SoccerBall.friction]
  rw [abs_of_neg (by norm_num : ((1 : ℝ) - 0.015 * 200) * 0.92 < 0)]
  norm_num

/-- C7 counterexample: a kick of power 1 with the zero direction vector does
not fall back to a default forward direction — THREE.js's `length || 1`
normalize guard leaves the zero vector unchanged, so the resulting velocity
is the zero vector (horizontal speed 0, not the kick power). -/
theorem kick_zero_direction_no_forward_fallback :
    (SoccerBall.kick SoccerBall.ball0 ⟨0, 0, 0⟩ 1 0 Soccer.Team.home 0).velocity =
      ⟨0, 0, 0⟩ ∧
    SoccerBall.hSpeed (SoccerBall.kick SoccerBall.ball0 ⟨0, 0, 0⟩ 1 0 Soccer.Team.home 0) = 0 := by
  have hv : (SoccerBall.kick SoccerBall.ball0 ⟨0, 0, 0⟩ 1 0 Soccer.Team.home 0).velocity =
      ⟨0, 0, 0⟩ := by
    simp only [SoccerBall.kick]
    rw [show ((⟨0, 0, 0⟩ : Vec3).x ^ 2 + (⟨0, 0, 0⟩ : Vec3).y ^ 2) = 0 by norm_num,
      Real.sqrt_zero, if_pos rfl]
    norm_num
  refine ⟨hv, ?_⟩
  rw [SoccerBall.hSpeed, hv]
  norm_num

/-- C7 (amended): a kick along the zero-length direction vector produces a
well-defined, NaN-free velocity, but not a forward one — the horizontal
components are zero and only the lift term `lift × power × 0.8` remains; a
ground pass aimed at the ball's own position likewise yields the zero
velocity.  (THREE.js `normalize` divides by `length || 1`, so the zero
vector normalizes to itself; no forward-direction fallback exists.) -/
theorem kick_pass_zero_direction (b : SoccerBall.Ball) (power spinAmount lift : ℝ)
    (kicker passer : Soccer.Team) :
    (SoccerBall.kick b ⟨0, 0, 0⟩ power spinAmount kicker lift).velocity =
      ⟨0, 0, lift * power * 0.8⟩ ∧
    (SoccerBall.pass b b.position SoccerBall.PassType.ground passer).velocity =
      ⟨0, 0, 0⟩ := by
  have hk : ∀ (b' : SoccerBall.Ball) (p sp l : ℝ) (k : Soccer.Team),
      (SoccerBall.kick b' ⟨0, 0, 0⟩ p sp k l).velocity = ⟨0, 0, l * p * 0.8⟩ := by
    intro b' p sp l k
    simp only [SoccerBall.kick]
    rw [show ((⟨0, 0, 0⟩ : Vec3).x ^ 2 + (⟨0, 0, 0⟩ : Vec3).y ^ 2) = 0 by norm_num,
      Real.sqrt_zero, if_pos rfl]
    norm_num
  refine ⟨hk b power spinAmount lift kicker, ?_⟩
  have hsub : Vec3.sub b.position b.position = ⟨0, 0, 0⟩ := by
    rw [Vec3.sub]
    norm_num
  have hnorm : Vec3.normalize ⟨0, 0, 0⟩ = ⟨0, 0, 0⟩ := by
    rw [Vec3.normalize]
    norm_num
  simp only [SoccerBall.pass, hsub, hnorm]
  rw [hk]
  norm_num
